import Mathlib

/-!
Verification of the request-scoped context container
(`context_package_example.go`) and of the create-user HTTP handler logic
(`http_handler_example.go`) of the repository, shallowly embedded in Lean.

Go's `context.Context` is modelled as an association list of key/value
bindings, most recent binding first: `context.WithValue(ctx, k, v)` returns a
new chain with `(k, v)` prepended, and `ctx.Value(k)` returns the value of the
nearest binding for `k`, or nothing when no binding exists.  Values stored in a
context are `interface{}` in Go, so a binding may hold a `mainContext` or a
value of any other type; the type assertion in `GetMainContext` is modelled by
matching on the stored value's shape.
-/

namespace ContextExample

/-- The payload struct `mainContext` with its two fields. -/
structure mainContext where
  RequestID : String
  IPAddress : String
deriving DecidableEq, Repr

/-- Keys usable with `context.WithValue`.  The package's own key is the
zero-size struct `mainContextKey{}`; other packages may bind arbitrary other
keys, modelled by `otherKey`. -/
inductive CtxKey where
  | mainContextKey
  | otherKey (id : Nat)
deriving DecidableEq, Repr

/-- Values storable in a context (`interface{}` in Go): either a
`mainContext`, or some value of a different dynamic type. -/
inductive CtxVal where
  | vMain (m : mainContext)
  | vOther (id : Nat)
deriving DecidableEq, Repr

/-- A propagation chain: the bindings added by `context.WithValue`, most
recent first. -/
abbrev Context := List (CtxKey × CtxVal)

/-- `ctx.Value(k)`: the value of the nearest binding for `k`, if any. -/
def contextValue (ctx : Context) (k : CtxKey) : Option CtxVal :=
  match ctx with
  | [] => none
  | (k2, v) :: rest => if k2 = k then some v else contextValue rest k

/-- `SetMainContext(ctx, data)` = `context.WithValue(ctx, mainContextKey{}, data)`. -/
def SetMainContext (ctx : Context) (data : mainContext) : Context :=
  (CtxKey.mainContextKey, CtxVal.vMain data) :: ctx

/-- `GetMainContext(ctx)`: type-assert the stored value; on failure return the
zero-valued `mainContext{}`. -/
def GetMainContext (ctx : Context) : mainContext :=
  match contextValue ctx CtxKey.mainContextKey with
  | some (CtxVal.vMain m) => m
  | _ => { RequestID := "", IPAddress := "" }

/-- `SetRequestID(ctx, requestID)`: read the current scope, overwrite its
`RequestID` field, and rebind the copy with one `context.WithValue` call. -/
def SetRequestID (ctx : Context) (requestID : String) : Context :=
  let data := GetMainContext ctx
  (CtxKey.mainContextKey, CtxVal.vMain { data with RequestID := requestID }) :: ctx

/-- `GetRequestID(ctx)`: project the `RequestID` field of the scope. -/
def GetRequestID (ctx : Context) : String :=
  (GetMainContext ctx).RequestID

/-- Whether a value of the expected shape (`mainContext`) is bound in the
chain under the package's key. -/
def hasMainScope (ctx : Context) : Bool :=
  match contextValue ctx CtxKey.mainContextKey with
  | some (CtxVal.vMain _) => true
  | _ => false

end ContextExample

namespace ContextExample

/-- C1: round-trip — for every chain `ctx` and scope `s`,
`GetMainContext (SetMainContext ctx s)` returns exactly `s` (hence both the
`RequestID` and `IPAddress` fields of the result equal those of `s`). -/
theorem getMainContext_setMainContext (ctx : Context) (s : mainContext) :
    GetMainContext (SetMainContext ctx s) = s ∧
    (GetMainContext (SetMainContext ctx s)).RequestID = s.RequestID ∧
    (GetMainContext (SetMainContext ctx s)).IPAddress = s.IPAddress := by
  refine ⟨?_, ?_, ?_⟩ <;> rfl

/-- C2: fail-open default on read — on every chain with no bound value of the
expected shape, `GetMainContext` returns the zero-valued scope
`{RequestID := "", IPAddress := ""}`; no error is signalled (the function is
total and its only other outcome, returning the bound value, needs a bound
scope). -/
theorem getMainContext_default (ctx : Context) (h : hasMainScope ctx = false) :
    GetMainContext ctx = { RequestID := "", IPAddress := "" } := by
  unfold GetMainContext
  unfold hasMainScope at h
  cases hv : contextValue ctx CtxKey.mainContextKey with
  | none => rfl
  | some v =>
    cases v with
    | vMain m => rw [hv] at h; simp at h
    | vOther id => rfl

/-- C2 witness: a chain holding only a foreign key and a wrong-shaped value
under the package's own key has no bound scope, and reading it yields the
zero-valued scope. -/
theorem getMainContext_default_witness :
    GetMainContext
        [(CtxKey.otherKey 7, CtxVal.vOther 3),
         (CtxKey.mainContextKey, CtxVal.vOther 9)] =
      { RequestID := "", IPAddress := "" } :=
  getMainContext_default
    [(CtxKey.otherKey 7, CtxVal.vOther 3),
     (CtxKey.mainContextKey, CtxVal.vOther 9)] (by rfl)

/-- C3: no-clobber — setting the request id on a chain that already holds the
scope `s` yields `s` with only `RequestID` replaced; `IPAddress` is
unchanged. -/
theorem setRequestID_no_clobber (ctx : Context) (s : mainContext) (x : String) :
    GetMainContext (SetRequestID (SetMainContext ctx s) x) =
      { s with RequestID := x } ∧
    (GetMainContext (SetRequestID (SetMainContext ctx s) x)).IPAddress =
      s.IPAddress := by
  exact ⟨rfl, rfl⟩

/-- C4: per-field setter composition — `SetRequestID ctx id` produces exactly
the chain `SetMainContext ctx s2` where `s2` is the current scope with its
`RequestID` field replaced by `id` (so the two are observationally equal under
`GetMainContext`), and the update adds exactly one binding to the chain
(one bind-to-chain operation). -/
theorem setRequestID_is_get_mutate_set (ctx : Context) (id : String) :
    SetRequestID ctx id =
      SetMainContext ctx { GetMainContext ctx with RequestID := id } ∧
    GetMainContext (SetRequestID ctx id) =
      GetMainContext (SetMainContext ctx { GetMainContext ctx with RequestID := id }) ∧
    (SetRequestID ctx id).length = ctx.length + 1 := by
  exact ⟨rfl, rfl, rfl⟩

/-- C5: getter is a projection — `GetRequestID ctx` equals the `RequestID`
field of `GetMainContext ctx`, and after binding the scope
`{RequestID := "abc", IPAddress := "1.2.3.4"}` it returns `"abc"`. -/
theorem getRequestID_projection (ctx : Context) :
    GetRequestID ctx = (GetMainContext ctx).RequestID ∧
    GetRequestID
        (SetMainContext ctx { RequestID := "abc", IPAddress := "1.2.3.4" }) =
      "abc" := by
  exact ⟨rfl, rfl⟩

/-- C8: copy semantics — both set operations return a new chain handle (one
binding longer than the original) in which the original chain appears
unmodified as the tail (structural sharing), so any read through the original
handle is unaffected by the update. -/
theorem set_operations_copy (ctx : Context) (s : mainContext) (x : String) :
    List.IsSuffix ctx (SetMainContext ctx s) ∧
    List.IsSuffix ctx (SetRequestID ctx x) ∧
    (SetMainContext ctx s).length = ctx.length + 1 ∧
    (SetRequestID ctx x).length = ctx.length + 1 := by
  refine ⟨⟨[(CtxKey.mainContextKey, CtxVal.vMain s)], rfl⟩, ?_, rfl, rfl⟩
  exact ⟨[(CtxKey.mainContextKey,
    CtxVal.vMain { GetMainContext ctx with RequestID := x })], rfl⟩

/-- C9: idempotence — binding the same scope twice yields a chain whose
`GetMainContext` result is the same as after binding it once. -/
theorem setMainContext_idempotent (ctx : Context) (s : mainContext) :
    GetMainContext (SetMainContext (SetMainContext ctx s) s) =
      GetMainContext (SetMainContext ctx s) := by
  rfl

end ContextExample

namespace ExamplePackage

/-!
Embedding of `http_handler_example.go`.  Go errors compared and unwrapped by
`errors.Is` are modelled by `GoError`: the two package sentinels are dedicated
constructors (they are distinct values created once by `errors.New`), plain
errors carry a message, and `fmt.Errorf` with a `%w` directive produces a
wrapping error holding its formatted message and the wrapped error.  Note that
in this file every `fmt.Errorf` call formats the upstream error with `%s`
(flattening it into the message) and applies `%w` only to a sentinel, so each
wrap chain has exactly one sentinel at its end. -/
inductive GoError where
  | errBadRequest
  | errInternal
  | mk (msg : String)
  | wrap (msg : String) (inner : GoError)
deriving DecidableEq, Repr

/-- The `Error()` string of an error, as `%s` would render it. -/
def errorMessage : GoError → String
  | GoError.errBadRequest => "input error"
  | GoError.errInternal => "internal error"
  | GoError.mk m => m
  | GoError.wrap m _ => m

/-- `errors.Is(err, target)`: `err == target`, or `target` is reachable by
repeatedly unwrapping `err`. -/
def errorIs : GoError → GoError → Bool
  | GoError.wrap m inner, target =>
      GoError.wrap m inner = target || errorIs inner target
  | e, target => e = target

/-- The `createUserRequest` payload struct. -/
structure createUserRequest where
  FullName : String
  Address : String
  City : String
  State : String
  ZipCode : Int
deriving DecidableEq, Repr

/-- The `createUserResponse` struct. -/
structure createUserResponse where
  ID : String
deriving DecidableEq, Repr

/-- `validateCreateUserRequest`: append one message per failing field check,
in order; `len(state)` is the byte length of the string, modelled by
`String.utf8ByteSize`.  A non-empty message list becomes a single error whose
message joins the list with "; ". -/
def validateCreateUserRequest (cur : createUserRequest) : Option GoError :=
  let errs : List String := []
  let errs := if cur.FullName = "" then errs ++ ["full name is required"] else errs
  let errs := if cur.Address = "" then errs ++ ["address is required"] else errs
  let errs := if cur.City = "" then errs ++ ["city is required"] else errs
  let errs := if cur.State = "" ∨ cur.State.utf8ByteSize ≠ 2 then
    errs ++ ["state is required and must be 2 characters"] else errs
  let errs := if cur.ZipCode = 0 then errs ++ ["zip code is required"] else errs
  if errs.length > 0 then some (GoError.mk (String.intercalate "; " errs)) else none

/-- The per-field messages applicable to a request, in field-check order
(full name, address, city, state, zip code), as the spec describes them. -/
def validationMessages (cur : createUserRequest) : List String :=
  (if cur.FullName = "" then ["full name is required"] else []) ++
  (if cur.Address = "" then ["address is required"] else []) ++
  (if cur.City = "" then ["city is required"] else []) ++
  (if cur.State = "" ∨ cur.State.utf8ByteSize ≠ 2 then
    ["state is required and must be 2 characters"] else []) ++
  (if cur.ZipCode = 0 then ["zip code is required"] else [])

/-- The outcome of `json.NewDecoder(req.Body).Decode(&cur)`: either the decoded
request or a decode error. -/
abbrev DecodeResult := Except GoError createUserRequest

/-- The behaviour of the stubbed collaborator `c.DB.InsertUser`: for a request
it yields either the new user id or an error. -/
abbrev InsertFn := createUserRequest → Except GoError String

/-- `handleCreateUser`: decode, validate, insert, in that order; decode and
validation failures wrap `errBadRequest`, insert failures wrap `errInternal`,
and on success the response carries the inserted user id with a nil error. -/
def handleCreateUser (dres : DecodeResult) (insertUser : InsertFn) :
    createUserResponse × Option GoError :=
  let resp : createUserResponse := { ID := "" }
  match dres with
  | Except.error e =>
      (resp, some (GoError.wrap
        ("failed to decode. " ++ errorMessage e ++ ". " ++
          errorMessage GoError.errBadRequest) GoError.errBadRequest))
  | Except.ok cur =>
      match validateCreateUserRequest cur with
      | some e =>
          (resp, some (GoError.wrap
            ("failed to validate create user request. " ++ errorMessage e ++
              ". " ++ errorMessage GoError.errBadRequest) GoError.errBadRequest))
      | none =>
          match insertUser cur with
          | Except.error e =>
              (resp, some (GoError.wrap
                ("failed to insert user. " ++ errorMessage e ++ ". " ++
                  errorMessage GoError.errInternal) GoError.errInternal))
          | Except.ok userID => ({ ID := userID }, none)

/-- The status-mapping branch of `CreateUserHandler`: it writes a 400 response
when the error is `errBadRequest`, a 500 response when it is `errInternal`,
and writes nothing otherwise. -/
def createUserStatusBranch (err : GoError) : Option Nat :=
  if errorIs err GoError.errBadRequest then some 400
  else if errorIs err GoError.errInternal then some 500
  else none

/-- The state check `cur.State == "" || len(cur.State) != 2` is equivalent to
the byte length differing from 2, since the empty string has byte length 0. -/
lemma state_check_iff (s : String) :
    (s = "" ∨ s.utf8ByteSize ≠ 2) ↔ s.utf8ByteSize ≠ 2 := by
  constructor
  · rintro (rfl | h)
    · decide
    · exact h
  · exact fun h => Or.inr h

/-- The error-message list accumulated by `validateCreateUserRequest` is
exactly `validationMessages`, and the function returns the joined messages
precisely when that list is non-empty. -/
lemma validateCreateUserRequest_eq (cur : createUserRequest) :
    validateCreateUserRequest cur =
      if validationMessages cur = [] then none
      else some (GoError.mk (String.intercalate "; " (validationMessages cur))) := by
  by_cases h1 : cur.FullName = "" <;>
    by_cases h2 : cur.Address = "" <;>
      by_cases h3 : cur.City = "" <;>
        by_cases h4 : cur.State = "" ∨ cur.State.utf8ByteSize ≠ 2 <;>
          by_cases h5 : cur.ZipCode = 0 <;>
            simp [validateCreateUserRequest, validationMessages, h1, h2, h3, h4, h5]

/-- `validationMessages` is empty exactly when every field check passes. -/
lemma validationMessages_eq_nil_iff (cur : createUserRequest) :
    validationMessages cur = [] ↔
      (cur.FullName ≠ "" ∧ cur.Address ≠ "" ∧ cur.City ≠ "" ∧
        cur.State.utf8ByteSize = 2 ∧ cur.ZipCode ≠ 0) := by
  rw [validationMessages]
  by_cases h1 : cur.FullName = "" <;>
    by_cases h2 : cur.Address = "" <;>
      by_cases h3 : cur.City = "" <;>
        by_cases h4 : cur.State = "" ∨ cur.State.utf8ByteSize ≠ 2 <;>
          by_cases h5 : cur.ZipCode = 0 <;>
            simp [h1, h2, h3, h4, h5, state_check_iff cur.State] <;>
              simp [state_check_iff cur.State] at h4 <;> simp [h4]

/-- At most one message is emitted per field, so never more than five. -/
lemma validationMessages_length_le (cur : createUserRequest) :
    (validationMessages cur).length ≤ 5 := by
  rw [validationMessages]
  by_cases h1 : cur.FullName = "" <;>
    by_cases h2 : cur.Address = "" <;>
      by_cases h3 : cur.City = "" <;>
        by_cases h4 : cur.State = "" ∨ cur.State.utf8ByteSize ≠ 2 <;>
          by_cases h5 : cur.ZipCode = 0 <;>
            simp [h1, h2, h3, h4, h5]

/-- C6: validation correctness — `validateCreateUserRequest` returns nil
exactly when `FullName`, `Address` and `City` are non-empty, `State` has
length exactly 2 and `ZipCode` is non-zero; any returned error's message is
the applicable per-field messages (a non-empty list of at most five, in
field-check order, as listed by `validationMessages`) joined by "; ". -/
theorem validateCreateUserRequest_correct (cur : createUserRequest) :
    (validateCreateUserRequest cur = none ↔
      (cur.FullName ≠ "" ∧ cur.Address ≠ "" ∧ cur.City ≠ "" ∧
        cur.State.utf8ByteSize = 2 ∧ cur.ZipCode ≠ 0)) ∧
    ∀ e, validateCreateUserRequest cur = some e →
      e = GoError.mk (String.intercalate "; " (validationMessages cur)) ∧
      validationMessages cur ≠ [] ∧ (validationMessages cur).length ≤ 5 := by
  constructor
  · rw [validateCreateUserRequest_eq, ← validationMessages_eq_nil_iff]
    by_cases h : validationMessages cur = [] <;> simp [h]
  · intro e he
    rw [validateCreateUserRequest_eq] at he
    by_cases h : validationMessages cur = []
    · simp [h] at he
    · simp [h] at he
      exact ⟨he.symm, h, validationMessages_length_le cur⟩

/-- A request passing every field check. -/
def sampleValidRequest : createUserRequest :=
  { FullName := "Jane Doe", Address := "1 Main St", City := "Springfield",
    State := "CA", ZipCode := 90210 }

/-- A request failing the full-name and zip-code checks. -/
def sampleInvalidRequest : createUserRequest :=
  { FullName := "", Address := "2 Elm St", City := "Shelbyville",
    State := "TX", ZipCode := 0 }

/-- C6 witness: the valid sample request validates to nil, and the invalid
sample request's error joins its two applicable messages with "; ". -/
theorem validateCreateUserRequest_correct_witness :
    validateCreateUserRequest sampleValidRequest = none ∧
    (GoError.mk "full name is required; zip code is required" =
        GoError.mk (String.intercalate "; " (validationMessages sampleInvalidRequest)) ∧
      validationMessages sampleInvalidRequest ≠ [] ∧
      (validationMessages sampleInvalidRequest).length ≤ 5) :=
  ⟨(validateCreateUserRequest_correct sampleValidRequest).1.mpr
      ⟨by decide, by decide, by decide, by decide, by decide⟩,
    (validateCreateUserRequest_correct sampleInvalidRequest).2
      (GoError.mk "full name is required; zip code is required") (by decide)⟩

/-- C7: sequential create-user flow with sentinel mapping — if decoding fails,
`handleCreateUser` returns an error satisfying `errors.Is(err, errBadRequest)`
and the result does not depend on the insert collaborator (the insert is not
called); likewise when validation fails; if decode and validation succeed but
the insert fails, the returned error satisfies `errors.Is(err, errInternal)`;
and on success the response carries the inserted user id with a nil error. -/
theorem handleCreateUser_flow (ins ins2 : InsertFn) :
    (∀ e, (∃ err, handleCreateUser (Except.error e) ins = ({ ID := "" }, some err) ∧
        errorIs err GoError.errBadRequest = true) ∧
      handleCreateUser (Except.error e) ins = handleCreateUser (Except.error e) ins2) ∧
    (∀ cur, validateCreateUserRequest cur ≠ none →
      (∃ err, handleCreateUser (Except.ok cur) ins = ({ ID := "" }, some err) ∧
        errorIs err GoError.errBadRequest = true) ∧
      handleCreateUser (Except.ok cur) ins = handleCreateUser (Except.ok cur) ins2) ∧
    (∀ cur e, validateCreateUserRequest cur = none → ins cur = Except.error e →
      ∃ err, handleCreateUser (Except.ok cur) ins = ({ ID := "" }, some err) ∧
        errorIs err GoError.errInternal = true) ∧
    (∀ cur uid, validateCreateUserRequest cur = none → ins cur = Except.ok uid →
      handleCreateUser (Except.ok cur) ins = ({ ID := uid }, none)) := by
  refine ⟨fun e => ⟨⟨_, rfl, ?_⟩, rfl⟩, fun cur hv => ?_, fun cur e hv hi => ?_,
    fun cur uid hv hi => ?_⟩
  · simp [errorIs]
  · cases hval : validateCreateUserRequest cur with
    | none => exact absurd hval hv
    | some e =>
        refine ⟨⟨GoError.wrap ("failed to validate create user request. " ++
          errorMessage e ++ ". " ++ errorMessage GoError.errBadRequest)
          GoError.errBadRequest, ?_, ?_⟩, ?_⟩
        · simp [handleCreateUser, hval]
        · simp [errorIs]
        · simp [handleCreateUser, hval]
  · refine ⟨GoError.wrap ("failed to insert user. " ++ errorMessage e ++ ". " ++
      errorMessage GoError.errInternal) GoError.errInternal, ?_, ?_⟩
    · simp [handleCreateUser, hv, hi]
    · simp [errorIs]
  · simp [handleCreateUser, hv, hi]

/-- C7 witness: with a decoded valid request and a succeeding insert the
handler returns the inserted id and no error; with a decode failure it returns
an `errBadRequest`-wrapping error regardless of the insert collaborator. -/
theorem handleCreateUser_flow_witness :
    handleCreateUser (Except.ok sampleValidRequest) (fun _ => Except.ok "user-1") =
      ({ ID := "user-1" }, none) ∧
    (∃ err, handleCreateUser (Except.error (GoError.mk "boom"))
          (fun _ => Except.ok "user-1") = ({ ID := "" }, some err) ∧
        errorIs err GoError.errBadRequest = true) :=
  ⟨(handleCreateUser_flow (fun _ => Except.ok "user-1") (fun _ => Except.ok "user-1")).2.2.2
      sampleValidRequest "user-1" (by decide) rfl,
    ((handleCreateUser_flow (fun _ => Except.ok "user-1")
        (fun _ => Except.error (GoError.mk "db down"))).1 (GoError.mk "boom")).1⟩

/-- C10: sentinel exhaustiveness — every non-nil error returned by
`handleCreateUser` satisfies `errors.Is` for exactly one of the two sentinels
`errBadRequest` and `errInternal`, so the status-mapping branch of
`CreateUserHandler` always writes some response on failure. -/
theorem handleCreateUser_sentinel (dres : DecodeResult) (ins : InsertFn)
    (err : GoError) (h : (handleCreateUser dres ins).2 = some err) :
    ((errorIs err GoError.errBadRequest = true ∧
        errorIs err GoError.errInternal = false) ∨
      (errorIs err GoError.errInternal = true ∧
        errorIs err GoError.errBadRequest = false)) ∧
    (createUserStatusBranch err).isSome = true := by
  have hcases :
      (∃ m, err = GoError.wrap m GoError.errBadRequest) ∨
      (∃ m, err = GoError.wrap m GoError.errInternal) := by
    cases dres with
    | error e =>
        simp [handleCreateUser] at h
        exact Or.inl ⟨_, h.symm⟩
    | ok cur =>
        cases hval : validateCreateUserRequest cur with
        | some e =>
            simp [handleCreateUser, hval] at h
            exact Or.inl ⟨_, h.symm⟩
        | none =>
            cases hins : ins cur with
            | error e =>
                simp [handleCreateUser, hval, hins] at h
                exact Or.inr ⟨_, h.symm⟩
            | ok uid => simp [handleCreateUser, hval, hins] at h
  rcases hcases with ⟨m, rfl⟩ | ⟨m, rfl⟩
  · exact ⟨Or.inl ⟨by simp [errorIs], by simp [errorIs]⟩,
      by simp [createUserStatusBranch, errorIs]⟩
  · exact ⟨Or.inr ⟨by simp [errorIs], by simp [errorIs]⟩,
      by simp [createUserStatusBranch, errorIs]⟩

/-- C10 witness: the error returned for a failed decode wraps `errBadRequest`
and not `errInternal`, and the status branch maps it to a response. -/
theorem handleCreateUser_sentinel_witness :
    ((errorIs (GoError.wrap "failed to decode. boom. input error"
          GoError.errBadRequest) GoError.errBadRequest = true ∧
        errorIs (GoError.wrap "failed to decode. boom. input error"
          GoError.errBadRequest) GoError.errInternal = false) ∨
      (errorIs (GoError.wrap "failed to decode. boom. input error"
          GoError.errBadRequest) GoError.errInternal = true ∧
        errorIs (GoError.wrap "failed to decode. boom. input error"
          GoError.errBadRequest) GoError.errBadRequest = false)) ∧
    (createUserStatusBranch (GoError.wrap "failed to decode. boom. input error"
        GoError.errBadRequest)).isSome = true :=
  handleCreateUser_sentinel (Except.error (GoError.mk "boom"))
    (fun _ => Except.ok "user-1")
    (GoError.wrap "failed to decode. boom. input error" GoError.errBadRequest)
    (by decide)

end ExamplePackage
